import Mathlib

/-!
Verification development for the connection-orchestrator core of the
chrome-devtools-mcp-custom repository (src/build/src/browser.js and
src/build/src/main.js, including the browser-management tool module).

The JavaScript code is shallowly embedded: pure computations become Lean
functions, network/process effects become explicit oracle parameters
(records of functions standing for fetch, DNS, connect, disconnect, ...),
and the module-level mutable variables become explicitly threaded state.
JavaScript exceptions are modelled with Except String; JavaScript string
truthiness (undefined and the empty string are falsy) is modelled
explicitly.

The URL model below embeds the behaviour of the WHATWG URL class
(Node's URL) on the URL shapes this program handles, in particular:
 - the hostname getter returns the serialized host, which for an IPv6
   address INCLUDES the surrounding brackets (so it reads "[::1]", never
   "::1", and no parsed URL ever has hostname "::1");
 - the port getter returns "" when no port is present or the port equals
   the scheme default (80 for http/ws, 443 for https/wss, 21 for ftp);
 - parsing a special-scheme URL with an empty path yields path "/";
 - construction of an invalid URL throws, modelled as Option.none.
-/

/-- JavaScript truthiness of an optional string: undefined and "" are falsy. -/
def jsTruthy : Option String → Bool
  | none => false
  | some s => s ≠ ""

/-- JavaScript a || b on optional strings (first operand kept when truthy). -/
def jsOrStr (a b : Option String) : Option String :=
  if jsTruthy a then a else b

/-- JavaScript a || b where a is an optional number (0 and undefined are falsy). -/
def jsOrNat (a : Option Nat) (b : Nat) : Nat :=
  match a with
  | some n => if n = 0 then b else n
  | none => b

/-- The parsed-URL record: the components of a WHATWG URL object that
rewriteWsEndpoint reads and writes.  port is the string returned by the
port getter ("" when absent/default); pathRest is path + query + fragment. -/
structure URLRec where
  scheme : String
  hostname : String
  port : String
  pathRest : String
deriving DecidableEq, Repr

/-- Default ports of the special schemes (WHATWG URL standard). -/
def defaultPort (scheme : String) : Option Nat :=
  if scheme = "http" ∨ scheme = "ws" then some 80
  else if scheme = "https" ∨ scheme = "wss" then some 443
  else if scheme = "ftp" then some 21
  else none

/-- Whether a scheme is one of the WHATWG special schemes (their URLs always
have a non-empty path). -/
def isSpecialScheme (scheme : String) : Bool :=
  scheme = "http" ∨ scheme = "https" ∨ scheme = "ws" ∨ scheme = "wss" ∨
    scheme = "ftp" ∨ scheme = "file"

/-- Numeric value of a list of decimal digits. -/
def digitsToNat (l : List Char) : Nat :=
  l.foldl (fun acc c => acc * 10 + (c.toNat - 48)) 0

/-- WHATWG port parsing: "" means no port; a digit string is reduced to its
numeric value, rejected above 65535, and elided when it equals the scheme
default.  Returns none on a non-digit port (invalid URL). -/
def normalizePort (scheme : String) (portStr : String) : Option String :=
  if portStr = "" then some ""
  else if portStr.toList.all Char.isDigit then
    let n := digitsToNat portStr.toList
    if n > 65535 then none
    else if defaultPort scheme = some n then some "" else some (toString n)
  else none

/-- Valid scheme: a letter followed by letters, digits, +, - or . -/
def validSchemeChars : List Char → Bool
  | [] => false
  | c :: rest =>
    c.isAlpha && rest.all (fun d => d.isAlpha || d.isDigit || d = '+' || d = '-' || d = '.')

/-- Characters acceptable in a (non-bracketed) hostname. -/
def validHostChars (l : List Char) : Bool :=
  l.all (fun c =>
    c ≠ ' ' && c ≠ '#' && c ≠ '/' && c ≠ ':' && c ≠ '?' && c ≠ '@' &&
    c ≠ '[' && c ≠ ']' && c ≠ '\\')

/-- Characters acceptable inside an IPv6 bracket host. -/
def validIpv6Chars (l : List Char) : Bool :=
  l ≠ [] && l.all (fun c => c.isDigit || c = ':' || c = '.' ||
    ('a' ≤ c && c ≤ 'f') || ('A' ≤ c && c ≤ 'F'))

/-- Split an authority (host[:port]) into host characters and port characters.
For a bracketed IPv6 host the brackets are KEPT in the host (matching the
WHATWG hostname getter, which returns the serialized host). -/
def splitHostPort : List Char → Option (List Char × List Char)
  | '[' :: tl =>
    let inside := tl.takeWhile (fun c => c ≠ ']')
    match tl.drop inside.length with
    | ']' :: after =>
      if validIpv6Chars inside then
        match after with
        | [] => some ('[' :: inside ++ [']'], [])
        | ':' :: pcs => some ('[' :: inside ++ [']'], pcs)
        | _ => none
      else none
    | _ => none
  | auth =>
    let host := auth.takeWhile (fun c => c ≠ ':')
    if validHostChars host then
      match auth.drop host.length with
      | [] => some (host, [])
      | ':' :: pcs => some (host, pcs)
      | _ => none
    else none

/-- Model of new URL(s) (Node's WHATWG URL constructor) on the URL shapes
this program handles: scheme://host[:port][/path...].  Returns none where
the constructor would throw. -/
def parseURL (s : String) : Option URLRec :=
  let cs := s.toList
  let schemeCs := cs.takeWhile (fun c => c ≠ ':')
  match cs.drop schemeCs.length with
  | ':' :: '/' :: '/' :: rest =>
    if validSchemeChars schemeCs then
      let auth := rest.takeWhile (fun c => c ≠ '/' && c ≠ '?' && c ≠ '#')
      let pathCs := rest.drop auth.length
      match splitHostPort auth with
      | none => none
      | some (hostCs, portCs) =>
        if hostCs.isEmpty then none
        else
          let scheme := String.mk schemeCs
          match normalizePort scheme (String.mk portCs) with
          | none => none
          | some p =>
            let path :=
              if pathCs.isEmpty ∧ isSpecialScheme scheme then "/"
              else String.mk pathCs
            some ⟨scheme, String.mk hostCs, p, path⟩
    else none
  | _ => none

/-- Serialization of a URL record (the toString / href of the URL object). -/
def urlToString (u : URLRec) : String :=
  u.scheme ++ "://" ++ u.hostname ++
    (if u.port = "" then "" else ":" ++ u.port) ++ u.pathRest

/-- The hostname setter (url.hostname = h).  The values this program assigns
are hostnames taken from another parsed URL, which are always valid, so the
setter is a plain field update. -/
def setHostname (u : URLRec) (h : String) : URLRec :=
  { u with hostname := h }

/-- The port setter (url.port = p).  The values this program assigns are
port getters of another parsed URL, i.e. "" or a digit string; "" clears
the port and a digit string is normalized against the target scheme.
An invalid value is ignored, as in the WHATWG setter. -/
def setPort (u : URLRec) (p : String) : URLRec :=
  match normalizePort u.scheme p with
  | some np => { u with port := np }
  | none => u

/-- Embedding of rewriteWsEndpoint (src/build/src/browser.js lines 22-36):
parse both URLs (returning the original string if either construction
throws), return the original string when the advertised host is not
loopback and the ports agree, and otherwise substitute the via-URL's
hostname and port into the advertised URL and reserialize. -/
def rewriteWsEndpoint (originalWsUrl viaBrowserURL : String) : String :=
  match parseURL originalWsUrl with
  | none => originalWsUrl
  | some wsUrl =>
    let isLoopback := wsUrl.hostname == "127.0.0.1" || wsUrl.hostname == "localhost"
      || wsUrl.hostname == "::1"
    match parseURL viaBrowserURL with
    | none => originalWsUrl
    | some via =>
      if !isLoopback && wsUrl.port == via.port then originalWsUrl
      else urlToString (setPort (setHostname wsUrl via.hostname) via.port)

/-- The JSON body served at browserURL/json/version: the fields the code
reads.  none models an absent field; the code treats "" like absent
(JavaScript truthiness). -/
structure VersionInfo where
  webSocketDebuggerUrl : Option String
  webSocketDebuggerUrlLegacy : Option String
deriving DecidableEq, Repr

/-- Embedding of resolveWsFromBrowserURL (src/build/src/browser.js lines
38-45) with the fetched /json/version body passed in: pick
webSocketDebuggerUrl || webSocketDebuggerUrlLegacy, throw when falsy,
otherwise rewrite the advertised endpoint against the browser URL. -/
def resolveWsFromBrowserURL (version : VersionInfo) (browserURL : String) :
    Except String String :=
  let original := jsOrStr version.webSocketDebuggerUrl version.webSocketDebuggerUrlLegacy
  if jsTruthy original then
    .ok (rewriteWsEndpoint (original.getD "") browserURL)
  else
    .error ("No webSocketDebuggerUrl in " ++ browserURL ++ "/json/version")

/-- resolveWsFromBrowserURL with the fetch made explicit: the oracle maps
the fetched URL to the outcome of fetchJsonWithTimeout (an HTTP error,
timeout, or the parsed JSON body). -/
def resolveWsFromBrowserURLM (fetchVersion : String → Except String VersionInfo)
    (browserURL : String) : Except String String :=
  match fetchVersion (browserURL ++ "/json/version") with
  | .error e => .error e
  | .ok v => resolveWsFromBrowserURL v browserURL

/-- A puppeteer Browser as far as this code observes it: an identity and
the connected flag. -/
structure Browser where
  id : Nat
  connected : Bool
deriving DecidableEq, Repr

/-- The result of discoverWebtopBrowser (src/build/src/browser.js lines
64-102) when a container is found. -/
structure DiscoveredBrowser where
  browserURL : String
  wsEndpoint : String
  container : String
  ip : String
  port : Nat
deriving DecidableEq, Repr

/-- The options argument of ensureBrowserConnected, restricted to the
fields that determine the connect path (wsHeaders and devtools only decorate
the connect options and do not alter control flow). -/
structure ConnectOptions where
  browserURL : Option String
  wsEndpoint : Option String
deriving DecidableEq, Repr

/-- Oracles for the effects performed by ensureBrowserConnected: docker
auto-discovery, the /json/version fetch, puppeteer.connect (keyed by the
browserWSEndpoint connect option, none when the code never set one), and
the four warm-up steps.  Each Except String models a promise that may
reject (including by its own timeout). -/
structure ConnEnv where
  discovery : Option DiscoveredBrowser
  fetchVersion : String → Except String VersionInfo
  connect : Option String → Except String Browser
  pages : Except String (List Nat)
  createCDPSession : Nat → Except String Nat
  runtimeEnable : Except String Unit
  pageEnable : Except String Unit

/-- The live check browser?.connected on the module-level browser variable. -/
def liveBrowser : Option Browser → Option Browser
  | some b => if b.connected then some b else none
  | none => none

/-- Embedding of src/build/src/browser.js lines 129-158: compute the
connection target label and the browserWSEndpoint that will be passed to
puppeteer.connect, or the error thrown before any connect is attempted
(auto-discovery exhausted, or resolveWsFromBrowserURL failed). -/
def connectWsOf (env : ConnEnv) (options : ConnectOptions) :
    Except String (String × Option String) :=
  if ¬ jsTruthy options.browserURL ∧ ¬ jsTruthy options.wsEndpoint then
    match env.discovery with
    | some d =>
      .ok (d.container ++ " (" ++ d.ip ++ ":" ++ toString d.port ++ ")", some d.wsEndpoint)
    | none =>
      .error "No browserURL or wsEndpoint provided, and auto-discovery found no running webtop containers with Chrome DevTools"
  else
    let target := (jsOrStr options.browserURL options.wsEndpoint).getD ""
    if jsTruthy options.wsEndpoint then .ok (target, options.wsEndpoint)
    else
      match resolveWsFromBrowserURLM env.fetchVersion (options.browserURL.getD "") with
      | .error e => .error e
      | .ok resolved => .ok (target, some resolved)

/-- The warm-up block of ensureBrowserConnected (src/build/src/browser.js
lines 163-174) as a fallible computation: listing pages or creating the CDP
session can fail; the two protocol sends carry their own .catch at the call
site, so their outcome is discarded here already. -/
def warmUpAttempt (env : ConnEnv) : Except String Unit :=
  match env.pages with
  | .error e => .error e
  | .ok pages =>
    match pages.head? with
    | none => .ok ()
    | some page =>
      match env.createCDPSession page with
      | .error e => .error e
      | .ok _client =>
        let _ := env.runtimeEnable
        let _ := env.pageEnable
        .ok ()

/-- What a call to ensureBrowserConnected did: its return value / thrown
error, the module-level browser variable afterwards, whether
discoverWebtopBrowser ran, and whether puppeteer.connect was attempted. -/
structure ConnResult where
  result : Except String Browser
  browserVar : Option Browser
  usedDiscovery : Bool
  attemptedConnect : Bool
deriving Repr

/-- Whether ensureBrowserConnected will run auto-discovery for these
options (src/build/src/browser.js line 134). -/
def autoDiscovers (options : ConnectOptions) : Bool :=
  ¬ jsTruthy options.browserURL ∧ ¬ jsTruthy options.wsEndpoint

/-- Embedding of ensureBrowserConnected (src/build/src/browser.js lines
124-183) over the module-level browser variable st: return the live
browser immediately if there is one; otherwise compute the connect plan,
connect (wrapping a connect failure with the connection target), run the
best-effort warm-up whose outcome is discarded by the inner try/catch,
and store the new browser in the module variable. -/
def ensureBrowserConnected (env : ConnEnv) (st : Option Browser)
    (options : ConnectOptions) : ConnResult :=
  match liveBrowser st with
  | some b => ⟨.ok b, st, false, false⟩
  | none =>
    match connectWsOf env options with
    | .error e => ⟨.error e, st, autoDiscovers options, false⟩
    | .ok (target, wsOpt) =>
      match env.connect wsOpt with
      | .error msg =>
        ⟨.error ("Failed to connect to Chrome DevTools at " ++ target ++ ": " ++ msg),
          st, autoDiscovers options, true⟩
      | .ok b =>
        let _warm := warmUpAttempt env
        ⟨.ok b, some b, autoDiscovers options, true⟩

/-- Embedding of ensureBrowserLaunched (src/build/src/browser.js lines
252-258): return the live browser if one is connected, otherwise launch
(oracle) and store the result.  The Bool records whether launch ran. -/
def ensureBrowserLaunched (launchOutcome : Except String Browser)
    (st : Option Browser) : Except String Browser × Option Browser × Bool :=
  match liveBrowser st with
  | some b => (.ok b, st, false)
  | none =>
    match launchOutcome with
    | .error e => (.error e, st, true)
    | .ok b => (.ok b, some b, true)

/-- The CLI arguments that drive getContext's connect-vs-launch policy. -/
structure AppArgs where
  browserUrl : Option String
  wsEndpoint : Option String
deriving DecidableEq, Repr

/-- Embedding of the browser acquisition of getContext (src/build/src/main.js
lines 56-83): always try ensureBrowserConnected first; on failure fall back
to ensureBrowserLaunched only when neither --browserUrl nor --wsEndpoint was
given, otherwise rethrow the connect error.  The Bool records whether the
launch fallback was invoked.  The withTimeout wrapper around the connect is
one more way the connect attempt can fail and is absorbed by the env
oracles. -/
def acquireBrowser (env : ConnEnv) (launchOutcome : Except String Browser)
    (st : Option Browser) (args : AppArgs) :
    Except String Browser × Option Browser × Bool :=
  let r := ensureBrowserConnected env st ⟨args.browserUrl, args.wsEndpoint⟩
  match r.result with
  | .ok b => (.ok b, r.browserVar, false)
  | .error e =>
    if ¬ jsTruthy args.browserUrl ∧ ¬ jsTruthy args.wsEndpoint then
      let l := ensureBrowserLaunched launchOutcome r.browserVar
      (l.1, l.2.1, true)
    else (.error e, r.browserVar, false)

/-- Embedding of isIp (browser-management tool): four groups of one to
three decimal digits separated by dots. -/
def splitOnDot : List Char → List (List Char)
  | [] => [[]]
  | c :: rest =>
    let r := splitOnDot rest
    if c = '.' then [] :: r
    else
      match r with
      | g :: gs => (c :: g) :: gs
      | [] => [[c]]

/-- isIp from the browser-management tool module. -/
def isIp (host : String) : Bool :=
  match splitOnDot host.toList with
  | [a, b, c, d] =>
    [a, b, c, d].all (fun s => s ≠ [] && s.length ≤ 3 && s.all Char.isDigit)
  | _ => false

/-- One candidate discovery URL as pushed by pushCandidatesForHostPort. -/
def candidateUrl (hostOrIp : String) (p : Nat) : String :=
  "http://" ++ hostOrIp ++ ":" ++ toString p

/-- Embedding of pushCandidatesForHostPort (browser-management tool, the
closure at src/build/src/main.js lines 283-290): the requested port first,
then the forwarder port 9999 when not already pushed, then 9222 as a last
resort when not already pushed. -/
def pushCandidatesForHostPort (hostOrIp : String) (p : Nat) : List String :=
  [candidateUrl hostOrIp p]
    ++ (if p ≠ 9999 then [candidateUrl hostOrIp 9999] else [])
    ++ (if p ≠ 9222 then [candidateUrl hostOrIp 9222] else [])

/-- The same candidate list at the (address, port)-pair level, for stating
the deduplication property exactly as the spec phrases it. -/
def pushCandidatePairs (hostOrIp : String) (p : Nat) : List (String × Nat) :=
  [(hostOrIp, p)]
    ++ (if p ≠ 9999 then [(hostOrIp, 9999)] else [])
    ++ (if p ≠ 9222 then [(hostOrIp, 9222)] else [])

/-- The value returned by tryCandidatesAndConnect on success; the browser is
identified by the id handed out by the connect oracle. -/
structure TryResult where
  newBrowser : Nat
  resolvedHttpUrl : String
  wsEndpoint : String
deriving DecidableEq, Repr

/-- One loop iteration body of tryCandidatesAndConnect (src/build/src/main.js
lines 227-238): fetch /json/version from the candidate (the oracle absorbs
fetchJsonVersion including its URL normalization, abort timer and HTTP
status check), require a truthy webSocketDebuggerUrl, then connect to it.
Note this path never calls rewriteWsEndpoint. -/
def attemptCandidate (fetchVersion : String → Except String VersionInfo)
    (connect : String → Except String Nat) (candidate : String) :
    Except String TryResult :=
  match fetchVersion candidate with
  | .error e => .error e
  | .ok data =>
    if jsTruthy data.webSocketDebuggerUrl then
      let ws := data.webSocketDebuggerUrl.getD ""
      match connect ws with
      | .error e => .error e
      | .ok b => .ok ⟨b, candidate, ws⟩
    else .error "No webSocketDebuggerUrl in /json/version"

/-- The aggregate error thrown when every candidate failed
(src/build/src/main.js lines 240-241). -/
def aggregateError (errors : List String) : String :=
  "Could not connect to any candidate endpoint:\n"
    ++ String.intercalate "\n" (errors.map (fun e => "- " ++ e))

/-- The loop of tryCandidatesAndConnect with its errors accumulator made
explicit. -/
def tryCandidatesAux (fetchVersion : String → Except String VersionInfo)
    (connect : String → Except String Nat) :
    List String → List String → Except String TryResult
  | [], errors => .error (aggregateError errors)
  | c :: rest, errors =>
    match attemptCandidate fetchVersion connect c with
    | .ok r => .ok r
    | .error m =>
      tryCandidatesAux fetchVersion connect rest (errors ++ [c ++ ": " ++ m])

/-- Embedding of tryCandidatesAndConnect (src/build/src/main.js lines
224-242): try the candidates sequentially, return the first success,
and throw the aggregate error listing every candidate's failure when all
fail. -/
def tryCandidatesAndConnect (fetchVersion : String → Except String VersionInfo)
    (connect : String → Except String Nat) (candidates : List String) :
    Except String TryResult :=
  tryCandidatesAux fetchVersion connect candidates []

/-- The parameters of the switch_browser tool. -/
structure SwitchParams where
  container : Option String
  port : Option Nat
  browserUrl : Option String
  wsEndpoint : Option String
deriving DecidableEq, Repr

/-- Oracles for the effects of the switch_browser handler: the old
browser's disconnect(), dns.lookup, the /json/version fetch, and the
ensureBrowserConnected call made with a given wsEndpoint (after the
handler's disconnect the module browser variable is never live, so that
call always reduces to a fresh puppeteer.connect; it returns the new
browser's id). -/
structure SwitchEnv where
  disconnect : Except String Unit
  dnsLookup : String → Option String
  fetchVersion : String → Except String VersionInfo
  ensureConnected : String → Except String Nat

/-- Embedding of the candidate-list construction of the switch_browser
handler (src/build/src/main.js lines 281-311): the container branch
resolves the name via DNS and uses port || 9999; the browserUrl branch
parses the URL (the URL constructor throw propagates), resolves non-IP
hostnames via DNS, and defaults the port from the protocol. -/
def buildCandidates (env : SwitchEnv) (params : SwitchParams) :
    Except String (List String) :=
  if jsTruthy params.container then
    let c := params.container.getD ""
    match env.dnsLookup c with
    | none => .error ("Unable to resolve container \"" ++ c ++ "\" to an IP address")
    | some ip =>
      let p := jsOrNat params.port 9999
      .ok (pushCandidatesForHostPort ip p)
  else if jsTruthy params.browserUrl then
    let urlStr := params.browserUrl.getD ""
    match parseURL urlStr with
    | none => .error ("Invalid URL: " ++ urlStr)
    | some u =>
      let hostIpE : Except String String :=
        if isIp u.hostname then .ok u.hostname
        else
          match env.dnsLookup u.hostname with
          | some r => .ok r
          | none =>
            .error ("Unable to resolve hostname \"" ++ u.hostname ++ "\" to an IP address")
      match hostIpE with
      | .error e => .error e
      | .ok hostIp =>
        let p := if u.port ≠ "" then digitsToNat u.port.toList
          else if u.scheme = "https" then 443 else 80
        .ok (pushCandidatesForHostPort hostIp p)
  else .ok []

/-- The fields of an McpContext object as far as identity and rebinding are
observable: which browser it is bound to. -/
structure CtxObj where
  browserId : Nat
deriving DecidableEq, Repr

/-- The mutable object world of the switch model: a heap of context
objects addressed by allocation order, the next fresh address, the address
held in the module-level context variable (and by every caller the handler
ever returned it to), and whether the context's browser is currently
connected. -/
structure SwitchSt where
  heap : Nat → Option CtxObj
  nextAddr : Nat
  ctxAddr : Nat
  ctxBrowserConnected : Bool

/-- Heap update at one address. -/
def hset (h : Nat → Option CtxObj) (a : Nat) (v : CtxObj) : Nat → Option CtxObj :=
  fun n => if n = a then some v else h n

/-- McpContext.from(newBrowser, logger): allocates a brand-new context
object bound to the given browser and returns its address. -/
def mcpContextFrom (b : Nat) (st : SwitchSt) : Nat × SwitchSt :=
  (st.nextAddr,
    { st with heap := hset st.heap st.nextAddr ⟨b⟩, nextAddr := st.nextAddr + 1 })

/-- Object.assign(target, src): copies the fields of the object at src onto
the object at target, in place; the target address itself is unchanged. -/
def objectAssign (st : SwitchSt) (target src : Nat) : SwitchSt :=
  match st.heap src with
  | some v => { st with heap := hset st.heap target v }
  | none => st

/-- src/build/src/main.js lines 320-322: build a fresh McpContext from the
new browser, then Object.assign its fields onto the existing context
object. -/
def finishSwitch (st : SwitchSt) (b : Nat) (target : String) :
    SwitchSt × Nat × String :=
  let fresh := mcpContextFrom b st
  let st2 := objectAssign fresh.2 st.ctxAddr fresh.1
  (st2, b, "Successfully switched to browser at " ++ target)

/-- The connection phase of the switch_browser handler (lines 274-318):
either connect directly to the supplied wsEndpoint, or build the candidate
list and run tryCandidatesAndConnect.  Returns the new browser id and the
resolved ws / http URLs recorded for the info tools. -/
def switchConnect (env : SwitchEnv) (params : SwitchParams) :
    Except String (Nat × Option String × Option String) :=
  if jsTruthy params.wsEndpoint then
    let ws := params.wsEndpoint.getD ""
    match env.ensureConnected ws with
    | .error e => .error e
    | .ok b => .ok (b, some ws, none)
  else
    match buildCandidates env params with
    | .error e => .error e
    | .ok cands =>
      match tryCandidatesAndConnect env.fetchVersion env.ensureConnected cands with
      | .error e => .error e
      | .ok r => .ok (r.newBrowser, some r.wsEndpoint, some r.resolvedHttpUrl)

/-- The success-message target (line 328): wsEndpoint || resolvedWs ||
resolvedHttpUrl || browserUrl || container. -/
def switchTarget (params : SwitchParams) (resolvedWs resolvedHttp : Option String) :
    String :=
  (jsOrStr params.wsEndpoint
    (jsOrStr resolvedWs
      (jsOrStr resolvedHttp
        (jsOrStr params.browserUrl params.container)))).getD ""

/-- Embedding of the switch_browser handler (src/build/src/main.js lines
257-331): validate that one of container / browserUrl / wsEndpoint was
given; if the context's browser is connected, await its disconnect — there
is no try/catch here, so a disconnect rejection propagates and aborts the
handler; then connect (direct wsEndpoint or candidate probing); finally
build a fresh McpContext and Object.assign it onto the existing context
object.  Returns the final state, the new browser id and the response
line. -/
def switchBrowserHandler (env : SwitchEnv) (params : SwitchParams)
    (st : SwitchSt) : Except String (SwitchSt × Nat × String) :=
  if ¬ jsTruthy params.container ∧ ¬ jsTruthy params.browserUrl
      ∧ ¬ jsTruthy params.wsEndpoint then
    .error "Provide one of: container, browserUrl, or wsEndpoint"
  else
    match (if st.ctxBrowserConnected then env.disconnect else .ok ()) with
    | .error e => .error e
    | .ok _ =>
      match switchConnect env params with
      | .error e => .error e
      | .ok (b, resolvedWs, resolvedHttp) =>
        .ok (finishSwitch st b (switchTarget params resolvedWs resolvedHttp))

/-- Projection of the switch handler outcome onto the resulting state. -/
def switchStateOf : Except String (SwitchSt × Nat × String) → Option SwitchSt
  | .ok x => some x.1
  | .error _ => none

/-- Whether a switch handler outcome is a success. -/
def switchIsOk : Except String (SwitchSt × Nat × String) → Bool
  | .ok _ => true
  | .error _ => false

/-- Concrete /json/version oracle for the prober scenario: candidate a
fails at the fetch, b and c advertise their control channels. -/
def fetchW : String → Except String VersionInfo := fun u =>
  if u = "http://a:1" then .error "fetch failed"
  else if u = "http://b:2" then .ok ⟨some "ws://b/ws", none⟩
  else .ok ⟨some "ws://c/ws", none⟩

/-- Concrete connect oracle for the prober scenario: candidate b's control
channel refuses, everything else connects as browser 7. -/
def connectW : String → Except String Nat := fun ws =>
  if ws = "ws://b/ws" then .error "connect failed" else .ok 7

/-- Concrete oracle where every discovery fetch is down. -/
def fetchF : String → Except String VersionInfo := fun _ => .error "down"

/-- Concrete connect oracle that is never reached in the all-fail scenario. -/
def connectF : String → Except String Nat := fun _ => .error "unreachable"

/-- A ConnEnv whose connect succeeds (browser 3) while every warm-up step
fails: pages() rejects, the CDP session cannot be created, both protocol
enables time out. -/
def envWarmFail : ConnEnv where
  discovery := none
  fetchVersion := fun _ => .error "unused"
  connect := fun _ => .ok ⟨3, true⟩
  pages := .error "pages timed out"
  createCDPSession := fun _ => .error "createCDPSession failed"
  runtimeEnable := .error "Runtime.enable timed out"
  pageEnable := .error "Page.enable timed out"

/-- A ConnEnv for the explicit-hint failure scenario: discovery would find
a container (to show it is not consulted), the version fetch answers with
a loopback endpoint, and the connect is refused. -/
def envRefused : ConnEnv where
  discovery := some ⟨"http://172.17.0.2:9999", "ws://172.17.0.2:9999/devtools/browser/z",
    "webtop1", "172.17.0.2", 9999⟩
  fetchVersion := fun _ => .ok ⟨some "ws://127.0.0.1:9222/devtools/browser/x", none⟩
  connect := fun _ => .error "connect ECONNREFUSED"
  pages := .ok []
  createCDPSession := fun _ => .error "unused"
  runtimeEnable := .ok ()
  pageEnable := .ok ()

/-- The initial object world of the switch scenarios: one context object at
address 0 bound to browser 1, held by the module variable and by callers;
its browser is connected. -/
def stSwitch : SwitchSt where
  heap := fun n => if n = 0 then some ⟨1⟩ else none
  nextAddr := 1
  ctxAddr := 0
  ctxBrowserConnected := true

/-- switch_browser parameters supplying a direct WebSocket endpoint. -/
def paramsWs : SwitchParams where
  container := none
  port := none
  browserUrl := none
  wsEndpoint := some "ws://172.17.0.5:9999/devtools/browser/y"

/-- Switch oracles where everything succeeds and the new connection is
browser 2. -/
def envSwitchOk : SwitchEnv where
  disconnect := .ok ()
  dnsLookup := fun _ => none
  fetchVersion := fun _ => .error "unused"
  ensureConnected := fun _ => .ok 2

/-- The state produced by the successful direct-wsEndpoint switch from
stSwitch to browser 2: the same context address 0, its object overwritten
in place, and a fresh (now aliased) allocation at address 1. -/
def stSwitchAfter : SwitchSt :=
  { stSwitch with heap := hset (hset stSwitch.heap 1 ⟨2⟩) 0 ⟨2⟩, nextAddr := 2 }

/-- Switch oracles identical to envSwitchOk except that the old browser's
disconnect() rejects. -/
def envSwitchDiscFail : SwitchEnv where
  disconnect := .error "WebSocket hang-up during disconnect"
  dnsLookup := fun _ => none
  fetchVersion := fun _ => .error "unused"
  ensureConnected := fun _ => .ok 2

/-- C1: the spec's own worked example holds for 127.0.0.1, and the same
check shows the code treats localhost the same way. -/
theorem rewrite_loopback_examples :
    resolveWsFromBrowserURL ⟨some "ws://127.0.0.1:9222/devtools/browser/x", none⟩
        "http://10.0.0.5:9999"
      = .ok "ws://10.0.0.5:9999/devtools/browser/x"
    ∧ rewriteWsEndpoint "ws://localhost:9222/devtools/browser/x" "http://10.0.0.5:9999"
      = "ws://10.0.0.5:9999/devtools/browser/x"
    ∧ rewriteWsEndpoint "ws://[::1]:9999/devtools/browser/x" "http://10.0.0.5:9999"
      = "ws://[::1]:9999/devtools/browser/x"
    ∧ "ws://[::1]:9999/devtools/browser/x" ≠ "ws://10.0.0.5:9999/devtools/browser/x" :=
  ⟨rfl, by decide, by decide, by decide⟩

example : rewriteWsEndpoint "ws://[::1]:9222/devtools/browser/x" "http://10.0.0.5:9999"
    = "ws://10.0.0.5:9999/devtools/browser/x" := by decide

/-- C2 counterexample: the claim says an advertised UNSPECIFIED host
(0.0.0.0) with matching port is rewritten to the Origin's host, but
rewriteWsEndpoint has no unspecified-host test: 0.0.0.0 is not in its
loopback set and the ports agree, so the advertised URL is returned
unmodified rather than substituted. -/
theorem rewrite_unspecified_host_not_rewritten :
    rewriteWsEndpoint "ws://0.0.0.0:9999/devtools/browser/x" "http://10.0.0.5:9999"
      = "ws://0.0.0.0:9999/devtools/browser/x"
    ∧ "ws://0.0.0.0:9999/devtools/browser/x" ≠ "ws://10.0.0.5:9999/devtools/browser/x" := by
  decide

/-- C2 amended: for well-formed inputs, rewriteWsEndpoint returns the
advertised URL unmodified exactly when the parsed advertised hostname is
none of 127.0.0.1 / localhost / "::1" (the latter matches no parsed URL,
since IPv6 hostnames serialize bracketed) and the normalized ports agree;
otherwise it substitutes the Origin's hostname and (renormalized) port
while keeping the advertised scheme and path.  Unspecified hosts such as
0.0.0.0 receive no special treatment. -/
theorem rewrite_condition_characterization (adv via : String) (w v : URLRec)
    (hw : parseURL adv = some w) (hv : parseURL via = some v) :
    ((w.hostname ≠ "127.0.0.1" ∧ w.hostname ≠ "localhost" ∧ w.hostname ≠ "::1")
        ∧ w.port = v.port → rewriteWsEndpoint adv via = adv)
    ∧ (∀ np,
        (w.hostname = "127.0.0.1" ∨ w.hostname = "localhost" ∨ w.hostname = "::1"
          ∨ w.port ≠ v.port) →
        normalizePort w.scheme v.port = some np →
        rewriteWsEndpoint adv via = urlToString ⟨w.scheme, v.hostname, np, w.pathRest⟩) := by
  have key : rewriteWsEndpoint adv via =
      if (!(w.hostname == "127.0.0.1" || w.hostname == "localhost" || w.hostname == "::1")
          && (w.port == v.port)) = true
      then adv
      else urlToString (setPort (setHostname w v.hostname) v.port) := by
    unfold rewriteWsEndpoint
    rw [hw, hv]
  constructor
  · rintro ⟨⟨h1, h2, h3⟩, hp⟩
    rw [key, if_pos]
    simp [h1, h2, h3, hp]
  · rintro np hcond hnp
    rw [key, if_neg]
    · simp [setHostname, setPort, hnp, urlToString]
    · rcases hcond with h | h | h | h <;> simp [h]

/-- C2 witness: instantiating the characterization at the spec's worked
loopback example. -/
theorem rewrite_condition_characterization_witness :
    rewriteWsEndpoint "ws://127.0.0.1:9222/devtools/browser/x" "http://10.0.0.5:9999"
      = urlToString ⟨"ws", "10.0.0.5", "9999", "/devtools/browser/x"⟩ :=
  (rewrite_condition_characterization
      "ws://127.0.0.1:9222/devtools/browser/x" "http://10.0.0.5:9999"
      ⟨"ws", "127.0.0.1", "9222", "/devtools/browser/x"⟩
      ⟨"http", "10.0.0.5", "9999", "/"⟩
      (by decide) (by decide)).2
    "9999" (Or.inl rfl) (by decide)

/-- C10: rewriteWsEndpoint is a total function (it is defined for every
pair of strings), and when either the advertised URL or the Origin URL
fails to parse — where the URL constructor would throw — the advertised
string is returned unchanged via the catch branch. -/
theorem rewrite_total_on_parse_failure (adv via : String)
    (h : parseURL adv = none ∨ parseURL via = none) :
    rewriteWsEndpoint adv via = adv := by
  unfold rewriteWsEndpoint
  rcases h with h | h
  · rw [h]
  · rw [h]
    cases parseURL adv <;> simp

/-- C10 witness: a string that is not a URL is passed through unchanged. -/
theorem rewrite_total_on_parse_failure_witness :
    rewriteWsEndpoint "not a url" "http://10.0.0.5:9999" = "not a url" :=
  rewrite_total_on_parse_failure "not a url" "http://10.0.0.5:9999"
    (Or.inl (by decide))

/-- C8: the candidate list generated for one host and requested port has
no duplicate (address, port) pair, consists of the requested port first
followed by forwarder port 9999 and default debug port 9222 each included
only when different from it, and on the spec's example the naive list
[9222, 9999, 9222] is emitted deduplicated as [9222, 9999]. -/
theorem candidates_dedup_order (h : String) (p : Nat) :
    (pushCandidatePairs h p).Nodup
    ∧ pushCandidatesForHostPort h p
        = (pushCandidatePairs h p).map (fun q => candidateUrl q.1 q.2)
    ∧ pushCandidatePairs h p
        = [(h, p)] ++ (if p ≠ 9999 then [(h, 9999)] else [])
            ++ (if p ≠ 9222 then [(h, 9222)] else [])
    ∧ pushCandidatesForHostPort "10.0.0.5" 9222
        = ["http://10.0.0.5:9222", "http://10.0.0.5:9999"] := by
  refine ⟨?_, ?_, rfl, by decide⟩
  · by_cases h1 : p = 9999 <;> by_cases h2 : p = 9222 <;>
      simp_all [pushCandidatePairs]
  · by_cases h1 : p = 9999 <;> by_cases h2 : p = 9222 <;>
      simp_all [pushCandidatePairs, pushCandidatesForHostPort]

/-- C8 witness: the candidate-list property instantiated at host 10.0.0.5
with requested port 80. -/
theorem candidates_dedup_order_witness :
    (pushCandidatePairs "10.0.0.5" 80).Nodup
    ∧ pushCandidatesForHostPort "10.0.0.5" 80
        = (pushCandidatePairs "10.0.0.5" 80).map (fun q => candidateUrl q.1 q.2)
    ∧ pushCandidatePairs "10.0.0.5" 80
        = [("10.0.0.5", 80)]
            ++ (if (80 : Nat) ≠ 9999 then [("10.0.0.5", 9999)] else [])
            ++ (if (80 : Nat) ≠ 9222 then [("10.0.0.5", 9222)] else [])
    ∧ pushCandidatesForHostPort "10.0.0.5" 9222
        = ["http://10.0.0.5:9222", "http://10.0.0.5:9999"] :=
  candidates_dedup_order "10.0.0.5" 80

/-- When every candidate fails with the reason msg gives, the prober loop
appends exactly one formatted reason per candidate, in order, to the
accumulator and throws the aggregate error. -/
theorem tryCandidatesAux_all_fail (fetchVersion : String → Except String VersionInfo)
    (connect : String → Except String Nat) (cs : List String) (msg : String → String)
    (h : ∀ x ∈ cs, attemptCandidate fetchVersion connect x = .error (msg x)) :
    ∀ acc, tryCandidatesAux fetchVersion connect cs acc
      = .error (aggregateError (acc ++ cs.map (fun x => x ++ ": " ++ msg x))) := by
  induction cs with
  | nil => intro acc; simp [tryCandidatesAux]
  | cons c rest ih =>
    intro acc
    have hc : attemptCandidate fetchVersion connect c = .error (msg c) := h c (by simp)
    simp only [tryCandidatesAux, hc]
    rw [ih (fun x hx => h x (by simp [hx]))]
    simp

/-- When every candidate before c fails and c succeeds with r, the prober
loop returns r, whatever the accumulator and whatever comes after c. -/
theorem tryCandidatesAux_first_success (fetchVersion : String → Except String VersionInfo)
    (connect : String → Except String Nat) (c : String) (r : TryResult)
    (post : List String) (hc : attemptCandidate fetchVersion connect c = .ok r) :
    ∀ pre : List String,
      (∀ x ∈ pre, ∃ m, attemptCandidate fetchVersion connect x = .error m) →
      ∀ acc, tryCandidatesAux fetchVersion connect (pre ++ c :: post) acc = .ok r := by
  intro pre
  induction pre with
  | nil => intro _ acc; simp [tryCandidatesAux, hc]
  | cons x xs ih =>
    intro hpre acc
    obtain ⟨m, hm⟩ := hpre x (by simp)
    simp only [List.cons_append, tryCandidatesAux, hm]
    exact ih (fun y hy => hpre y (by simp [hy])) _

/-- C4: tryCandidatesAndConnect probes candidates sequentially in declared
order.  First conjunct: if every candidate of some prefix fails and the
next candidate succeeds, that candidate's result is returned and no
aggregate error is raised — the suffix after it is universally quantified,
so later candidates are never consulted.  Second conjunct: if every
candidate fails, the thrown aggregate error enumerates exactly one failure
reason per candidate, formatted candidate-by-candidate in declared
order. -/
theorem prober_first_success_and_full_enumeration :
    (∀ (fetchVersion : String → Except String VersionInfo)
        (connect : String → Except String Nat)
        (pre post : List String) (c : String) (r : TryResult),
      (∀ x ∈ pre, ∃ m, attemptCandidate fetchVersion connect x = .error m) →
      attemptCandidate fetchVersion connect c = .ok r →
      tryCandidatesAndConnect fetchVersion connect (pre ++ c :: post) = .ok r)
    ∧ (∀ (fetchVersion : String → Except String VersionInfo)
        (connect : String → Except String Nat)
        (cs : List String) (msg : String → String),
      (∀ x ∈ cs, attemptCandidate fetchVersion connect x = .error (msg x)) →
      tryCandidatesAndConnect fetchVersion connect cs
        = .error (aggregateError (cs.map (fun x => x ++ ": " ++ msg x)))) := by
  constructor
  · intro fetchVersion connect pre post c r hpre hc
    exact tryCandidatesAux_first_success fetchVersion connect c r post hc pre hpre []
  · intro fetchVersion connect cs msg h
    simpa using tryCandidatesAux_all_fail fetchVersion connect cs msg h []

/-- C4 witness: with candidates a, b, c where a's fetch fails and b's
connect fails, the prober returns c's result; and with every fetch down,
the aggregate error lists all three reasons in order. -/
theorem prober_first_success_and_full_enumeration_witness :
    tryCandidatesAndConnect fetchW connectW
        (["http://a:1", "http://b:2"] ++ "http://c:3" :: [])
      = .ok ⟨7, "http://c:3", "ws://c/ws"⟩
    ∧ tryCandidatesAndConnect fetchF connectF
        ["http://a:1", "http://b:2", "http://c:3"]
      = .error (aggregateError
          (["http://a:1", "http://b:2", "http://c:3"].map
            (fun x => x ++ ": " ++ "down"))) :=
  ⟨prober_first_success_and_full_enumeration.1 fetchW connectW
      ["http://a:1", "http://b:2"] [] "http://c:3" ⟨7, "http://c:3", "ws://c/ws"⟩
      (by
        intro x hx
        simp only [List.mem_cons, List.mem_singleton] at hx
        rcases hx with rfl | rfl | hx
        · exact ⟨"fetch failed", rfl⟩
        · exact ⟨"connect failed", rfl⟩
        · simp at hx)
      rfl,
   prober_first_success_and_full_enumeration.2 fetchF connectF
      ["http://a:1", "http://b:2", "http://c:3"] (fun _ => "down")
      (fun x _ => rfl)⟩

/-- C3: when an explicit connection hint (--browserUrl or --wsEndpoint) is
present and the connect attempt fails, getContext rethrows exactly the
connect error and the launch fallback is never invoked (third component
false); launchOutcome is universally quantified, so no property of the
local launch can influence the result. -/
theorem explicit_hint_failure_never_launches (env : ConnEnv)
    (launchOutcome : Except String Browser) (st : Option Browser)
    (args : AppArgs) (e : String)
    (hhint : jsTruthy args.browserUrl ∨ jsTruthy args.wsEndpoint)
    (hfail : (ensureBrowserConnected env st ⟨args.browserUrl, args.wsEndpoint⟩).result
      = .error e) :
    acquireBrowser env launchOutcome st args
      = (.error e,
          (ensureBrowserConnected env st ⟨args.browserUrl, args.wsEndpoint⟩).browserVar,
          false) := by
  have hno : ¬(¬ jsTruthy args.browserUrl ∧ ¬ jsTruthy args.wsEndpoint) := by
    rcases hhint with h | h <;> simp [h]
  simp only [acquireBrowser, hfail, hno, if_false, if_neg hno]

/-- C3 witness: with --browserUrl given and the connect refused, the
refusal is propagated and launch is not invoked, even though launching
would have produced a browser. -/
theorem explicit_hint_failure_never_launches_witness :
    acquireBrowser envRefused (.ok ⟨9, true⟩) none
        ⟨some "http://10.0.0.5:9999", none⟩
      = (.error "Failed to connect to Chrome DevTools at http://10.0.0.5:9999: connect ECONNREFUSED",
          (ensureBrowserConnected envRefused none ⟨some "http://10.0.0.5:9999", none⟩).browserVar,
          false) :=
  explicit_hint_failure_never_launches envRefused (.ok ⟨9, true⟩) none
    ⟨some "http://10.0.0.5:9999", none⟩ _ (Or.inl (by decide)) rfl

/-- C7: whenever ensureBrowserConnected reaches puppeteer.connect (no live
browser, and the plan phase produced a browserWSEndpoint) and the connect
succeeds, the connected browser is returned and stored — for every
valuation of the four warm-up oracles (pages, createCDPSession,
Runtime.enable, Page.enable), since env is universally quantified here;
warm-up failures are swallowed by the inner try/catch and the per-send
catch handlers. -/
theorem warmup_failures_never_fail_connect (env : ConnEnv) (st : Option Browser)
    (options : ConnectOptions) (target : String) (wsOpt : Option String) (b : Browser)
    (hlive : liveBrowser st = none)
    (hplan : connectWsOf env options = .ok (target, wsOpt))
    (hconn : env.connect wsOpt = .ok b) :
    (ensureBrowserConnected env st options).result = .ok b
    ∧ (ensureBrowserConnected env st options).browserVar = some b := by
  simp [ensureBrowserConnected, hlive, hplan, hconn]

/-- C7 witness: with every warm-up step failing (pages() rejects, the CDP
session cannot be created, both enables time out), a successful connect
still returns and stores the browser. -/
theorem warmup_failures_never_fail_connect_witness :
    (ensureBrowserConnected envWarmFail none ⟨none, some "ws://x/devtools/browser/q"⟩).result
      = .ok ⟨3, true⟩
    ∧ (ensureBrowserConnected envWarmFail none ⟨none, some "ws://x/devtools/browser/q"⟩).browserVar
      = some ⟨3, true⟩ :=
  warmup_failures_never_fail_connect envWarmFail none
    ⟨none, some "ws://x/devtools/browser/q"⟩
    "ws://x/devtools/browser/q" (some "ws://x/devtools/browser/q") ⟨3, true⟩
    rfl rfl rfl

/-- C9: with a live connected browser in the module variable, both
ensureBrowserConnected and ensureBrowserLaunched return it unchanged and
immediately: no discovery, no connect attempt, no launch (all effect flags
false), whatever the oracles and options. -/
theorem live_browser_short_circuits (env : ConnEnv)
    (launchOutcome : Except String Browser) (options : ConnectOptions)
    (st : Option Browser) (b : Browser)
    (hst : st = some b) (hconn : b.connected = true) :
    ensureBrowserConnected env st options = ⟨.ok b, st, false, false⟩
    ∧ ensureBrowserLaunched launchOutcome st = (.ok b, st, false) := by
  subst hst
  constructor
  · simp [ensureBrowserConnected, liveBrowser, hconn]
  · simp [ensureBrowserLaunched, liveBrowser, hconn]

/-- C9 witness: a connected browser 5 is returned as-is by both ensure
functions, with no effects, even though the oracles would fail. -/
theorem live_browser_short_circuits_witness :
    ensureBrowserConnected envRefused (some ⟨5, true⟩) ⟨none, none⟩
      = ⟨.ok ⟨5, true⟩, some ⟨5, true⟩, false, false⟩
    ∧ ensureBrowserLaunched (.error "spawn failed") (some ⟨5, true⟩)
      = (.ok ⟨5, true⟩, some ⟨5, true⟩, false) :=
  live_browser_short_circuits envRefused (.error "spawn failed") ⟨none, none⟩
    (some ⟨5, true⟩) ⟨5, true⟩ rfl rfl

/-- The final step of the switch handler updates the existing context
object in place: the context address is unchanged, the object at that
address now carries the new browser, the freshly allocated context carries
the same fields, and the reported browser is the one passed in. -/
theorem finishSwitch_in_place (st : SwitchSt) (b : Nat) (target : String) :
    ((finishSwitch st b target).1).ctxAddr = st.ctxAddr
    ∧ ((finishSwitch st b target).1).heap st.ctxAddr = some ⟨b⟩
    ∧ ((finishSwitch st b target).1).heap st.nextAddr = some ⟨b⟩
    ∧ (finishSwitch st b target).2.1 = b := by
  unfold finishSwitch mcpContextFrom objectAssign
  by_cases hna : st.nextAddr = st.ctxAddr <;> simp [hset, hna]

/-- C5 amended: on every successful switch the handler keeps the existing
SessionContext reference (same address) and copies the fields of a freshly
built context onto it via Object.assign, so the object callers already
hold is mutated field-by-field to carry the new Connection; its fields
afterwards coincide with those of the freshly built context (third
conjunct: the fresh allocation at the old nextAddr holds the same
fields). -/
theorem switch_rebinds_existing_context_in_place (env : SwitchEnv)
    (params : SwitchParams) (st st' : SwitchSt) (b : Nat) (msg : String)
    (h : switchBrowserHandler env params st = .ok (st', b, msg)) :
    st'.ctxAddr = st.ctxAddr
    ∧ st'.heap st.ctxAddr = some ⟨b⟩
    ∧ st'.heap st.nextAddr = some ⟨b⟩ := by
  unfold switchBrowserHandler at h
  split at h
  · exact absurd h (by simp)
  · split at h
    · exact absurd h (by simp)
    · split at h
      · exact absurd h (by simp)
      · rename_i bN rws rhttp heq
        injection h with h3
        have hst' : (finishSwitch st bN (switchTarget params rws rhttp)).1 = st' := by
          rw [h3]
        have hb : (finishSwitch st bN (switchTarget params rws rhttp)).2.1 = b := by
          rw [h3]
        have hb' : bN = b := by
          have hfin := (finishSwitch_in_place st bN (switchTarget params rws rhttp)).2.2.2
          rw [hfin] at hb
          exact hb
        subst hb'
        refine ⟨?_, ?_, ?_⟩ <;> rw [← hst']
        · exact (finishSwitch_in_place st bN _).1
        · exact (finishSwitch_in_place st bN _).2.1
        · exact (finishSwitch_in_place st bN _).2.2.1

/-- C5 witness: running the amended theorem on the concrete successful
switch scenario. -/
theorem switch_rebinds_existing_context_in_place_witness :
    stSwitchAfter.ctxAddr = stSwitch.ctxAddr
    ∧ stSwitchAfter.heap stSwitch.ctxAddr = some ⟨2⟩
    ∧ stSwitchAfter.heap stSwitch.nextAddr = some ⟨2⟩ :=
  switch_rebinds_existing_context_in_place envSwitchOk paramsWs stSwitch stSwitchAfter 2
    "Successfully switched to browser at ws://172.17.0.5:9999/devtools/browser/y" rfl

/-- C5 counterexample: after the successful concrete switch the context
reference still points at address 0 (no fresh object was installed for
callers) and the object at address 0 — the one previously returned to
callers — has been mutated from browser 1 to browser 2; the claim asserts
that object is never mutated field-by-field. -/
theorem switch_mutates_caller_held_context :
    switchIsOk (switchBrowserHandler envSwitchOk paramsWs stSwitch) = true
    ∧ (switchStateOf (switchBrowserHandler envSwitchOk paramsWs stSwitch)).map
        SwitchSt.ctxAddr = some 0
    ∧ ((switchStateOf (switchBrowserHandler envSwitchOk paramsWs stSwitch)).bind
        (fun s => s.heap 0)) = some ⟨2⟩
    ∧ stSwitch.heap 0 = some ⟨1⟩
    ∧ stSwitch.ctxAddr = 0 :=
  ⟨rfl, rfl, rfl, rfl, rfl⟩

/-- C6 amended: the disconnect of the old Connection is awaited without
any error handling, so whenever the context's browser is connected and
disconnect() rejects, the whole switch handler rethrows that rejection
and aborts — no connect to the new target happens (env carries the connect
oracles and is universally quantified, so nothing downstream can be
consulted). -/
theorem disconnect_failure_aborts_switch (env : SwitchEnv) (params : SwitchParams)
    (st : SwitchSt) (e : String)
    (hparams : jsTruthy params.container ∨ jsTruthy params.browserUrl
      ∨ jsTruthy params.wsEndpoint)
    (hconn : st.ctxBrowserConnected = true)
    (hdisc : env.disconnect = .error e) :
    switchBrowserHandler env params st = .error e := by
  have hno : ¬(¬ jsTruthy params.container ∧ ¬ jsTruthy params.browserUrl
      ∧ ¬ jsTruthy params.wsEndpoint) := by
    rcases hparams with h | h | h <;> simp [h]
  simp only [switchBrowserHandler]
  rw [if_neg hno]
  simp [hconn, hdisc]

/-- C6 counterexample: the identical switch scenario succeeds when
disconnect succeeds, but aborts with the disconnect rejection when
disconnect fails — so a disconnect failure is fatal to the switch, which
the claim denies. -/
theorem disconnect_failure_is_fatal_counterexample :
    switchBrowserHandler envSwitchDiscFail paramsWs stSwitch
      = .error "WebSocket hang-up during disconnect"
    ∧ switchIsOk (switchBrowserHandler envSwitchOk paramsWs stSwitch) = true :=
  ⟨rfl, rfl⟩

/-- C6 witness: the amended theorem instantiated on the concrete failing
disconnect. -/
theorem disconnect_failure_aborts_switch_witness :
    switchBrowserHandler envSwitchDiscFail paramsWs stSwitch
      = .error "WebSocket hang-up during disconnect" :=
  disconnect_failure_aborts_switch envSwitchDiscFail paramsWs stSwitch
    "WebSocket hang-up during disconnect"
    (Or.inr (Or.inr (by decide))) rfl rfl
